import Mathlib

/-!
Shallow embedding of `research_paper_summarizer_ui.py`: the resilient
Gemini API client (`gemini_api_call`), the two stage functions
(`generate_paper_content`, `summarize_content`) and the module-level
"Generate & Summarize" button handler.

The HTTP transport is modelled by an oracle `Nat → AttemptResult` giving,
for each loop iteration `i`, what `requests.post` (and `response.json()`)
does on that attempt.  Python exceptions are modelled by `PyExc`, carrying
the class facts the code branches on: whether the exception is a
`requests.exceptions.RequestException` and whether it is an `Exception`
subclass.  Side effects (`requests.post`, `time.sleep`, `st.error`) are
recorded as an event trace.
-/

namespace ResearchSummarizer

/-- A Python exception, abstracted to the class facts the code tests:
membership in `requests.exceptions.RequestException` (first `except` clause)
and in `Exception` (second `except` clause). -/
structure PyExc where
  name : String
  isRequestException : Bool
  isException : Bool

/-- The `requests.exceptions.HTTPError` raised by `response.raise_for_status()`
for a 4xx/5xx status; it is a `RequestException`. -/
def httpError (status : Nat) : PyExc :=
  { name := "HTTPError " ++ toString status, isRequestException := true, isException := true }

/-- The `IndexError` raised by `[0]` on an empty list during extraction;
not a `RequestException`. -/
def indexError : PyExc :=
  { name := "IndexError", isRequestException := false, isException := true }

/-- One entry of the `parts` array of a response body (a dict that may
lack the `text` key). -/
structure RPart where
  text : Option String

/-- The `content` dict of a candidate (may lack the `parts` key). -/
structure RContent where
  parts : Option (List RPart)

/-- One entry of the `candidates` array (may lack the `content` key). -/
structure RCandidate where
  content : Option RContent

/-- A parsed JSON response body (a dict that may lack the `candidates` key). -/
structure ResponseBody where
  candidates : Option (List RCandidate)

/-- Drop leading whitespace characters from a character list. -/
def dropLeadingSpace : List Char → List Char
  | [] => []
  | c :: cs => if c.isWhitespace then dropLeadingSpace cs else c :: cs

/-- Python `str.strip()`: remove leading and trailing whitespace. -/
def pyStrip (s : String) : String :=
  ((dropLeadingSpace ((dropLeadingSpace s.toList).reverse)).reverse).asString

/-- Lines 64-65 of the source:
`candidate = result.get('candidates', [{}])[0]` followed by
`text = candidate.get('content', {}).get('parts', [{}])[0].get('text', '').strip()`.
A `[0]` on an empty list raises `IndexError`; every `.get` falls back to
its default. -/
def extractText (result : ResponseBody) : Except PyExc String :=
  match result.candidates.getD [{ content := none }] with
  | [] => .error indexError
  | candidate :: _ =>
    match (candidate.content.getD { parts := none }).parts.getD [{ text := none }] with
    | [] => .error indexError
    | part :: _ => .ok (pyStrip (part.text.getD ""))

/-- What the transport does on one attempt: either `requests.post` raises,
or it returns a response with a status code and a body whose
`response.json()` parse either raises or yields a `ResponseBody`. -/
inductive AttemptResult where
  | raised (e : PyExc)
  | response (status : Nat) (body : Except PyExc ResponseBody)

/-- Outcome of the `try` block of one loop iteration (lines 49-67):
a normal `return text`, the explicit 403 branch, or an exception reaching
the `except` clauses. -/
inductive TryOutcome where
  | returned (text : String)
  | auth403
  | caught (e : PyExc)

/-- The `try` body of lines 49-67: post, 403 short-circuit,
`raise_for_status` (raises for 4xx/5xx), json parse, extraction. -/
def runTry (r : AttemptResult) : TryOutcome :=
  match r with
  | .raised e => .caught e
  | .response status bodyE =>
    if status = 403 then .auth403
    else if 400 ≤ status ∧ status < 600 then .caught (httpError status)
    else
      match bodyE with
      | .error e => .caught e
      | .ok body =>
        match extractText body with
        | .ok t => .returned t
        | .error e => .caught e

/-- Observable side effects of `gemini_api_call`: an HTTP POST attempt,
a `time.sleep(seconds)`, and the three `st.error` reports (403 message,
final-failure message naming the retry count and cause, unexpected-error
message naming the cause). -/
inductive Event where
  | post
  | sleep (seconds : Nat)
  | errorAuth
  | errorFinal (retryCount : Int) (cause : PyExc)
  | errorUnexpected (cause : PyExc)

/-- Result of the retry loop: the value produced (`.ok s` for a normal
`return`, `.error e` for an exception propagating out of the function)
and the event trace. -/
structure LoopResult where
  ret : Except PyExc String
  events : List Event

/-- The `for i in range(retry_count)` loop of lines 48-79.  `i` is the
current loop index, the second `Nat` argument is the number of iterations
remaining (`retry_count - i` at entry).  Exhausting the loop reaches the
final `return ""` of line 79. -/
def geminiLoop (oracle : Nat → AttemptResult) (retry_count : Int) : Nat → Nat → LoopResult
  | _, 0 => { ret := .ok "", events := [] }
  | i, rem + 1 =>
    match runTry (oracle i) with
    | .returned text => { ret := .ok text, events := [.post] }
    | .auth403 => { ret := .ok "", events := [.post, .errorAuth] }
    | .caught e =>
      if e.isRequestException then
        if (i : Int) < retry_count - 1 then
          { ret := (geminiLoop oracle retry_count (i + 1) rem).ret,
            events := .post :: .sleep (2 ^ i) :: (geminiLoop oracle retry_count (i + 1) rem).events }
        else
          { ret := .ok "", events := [.post, .errorFinal retry_count e] }
      else if e.isException then
        { ret := .ok "", events := [.post, .errorUnexpected e] }
      else
        { ret := .error e, events := [.post] }

/-- The module-level configuration globals (`API_URL`, `API_KEY`),
made explicit so claims quantifying over configurations can be stated. -/
structure Config where
  api_url : String
  api_key : String

def API_KEY : String := "YOUR_GEMINI_API_KEY"

def API_URL : String :=
  "https://generativelanguage.googleapis.com/v1beta/models/gemini-2.0-flash:generateContent"

def defaultConfig : Config := { api_url := API_URL, api_key := API_KEY }

/-- Line 46: `url = f"{API_URL}?key={API_KEY}" if API_KEY else API_URL`
(Python string truthiness: the key participates iff it is non-empty). -/
def build_url (cfg : Config) : String :=
  if cfg.api_key = "" then cfg.api_url else cfg.api_url ++ "?key=" ++ cfg.api_key

/-- `charsStartWith pat l` is true iff `pat` is an initial segment of `l`. -/
def charsStartWith : List Char → List Char → Bool
  | [], _ => true
  | _ :: _, [] => false
  | a :: pa, b :: pb => a == b && charsStartWith pa pb

/-- `charsContain pat l` is true iff `pat` occurs contiguously in `l`. -/
def charsContain (pat : List Char) : List Char → Bool
  | [] => pat.isEmpty
  | b :: bs => charsStartWith pat (b :: bs) || charsContain pat bs

/-- Python `pat in s` substring containment on strings. -/
def strContains (s pat : String) : Bool := charsContain pat.toList s.toList

/-- Line 37: `0.7 if "Summarize" in system_instruction else 0.9`
(case-sensitive substring match on the system instruction). -/
def temperature_of (system_instruction : String) : ℚ :=
  if strContains system_instruction "Summarize" then 7/10 else 9/10

/-- The `generation_config` dict of lines 34-38. -/
structure GenerationConfig where
  maxOutputTokens : Nat
  temperature : ℚ

/-- The request `gemini_api_call` constructs once per invocation:
the URL (line 46) and the payload fields of lines 40-44. -/
structure ApiRequest where
  url : String
  user_prompt : String
  system_instruction : String
  generation_config : GenerationConfig

/-- Result of one `gemini_api_call` invocation: the request it built,
the value it produced and the event trace. -/
structure CallResult where
  request : ApiRequest
  ret : Except PyExc String
  events : List Event

/-- `gemini_api_call(user_prompt, system_instruction, max_tokens, retry_count)`
of lines 26-79, over a transport oracle. -/
def gemini_api_call (cfg : Config) (oracle : Nat → AttemptResult)
    (user_prompt system_instruction : String) (max_tokens : Nat) (retry_count : Int) :
    CallResult :=
  let generation_config : GenerationConfig :=
    { maxOutputTokens := max_tokens, temperature := temperature_of system_instruction }
  let request : ApiRequest :=
    { url := build_url cfg, user_prompt := user_prompt,
      system_instruction := system_instruction, generation_config := generation_config }
  let r := geminiLoop oracle retry_count 0 retry_count.toNat
  { request := request, ret := r.ret, events := r.events }

/-- The Stage-1 system prompt of lines 86-90 (Python implicit string
concatenation). -/
def generation_system_prompt : String :=
  "You are an academic writer and expert in AI. Your task is to generate a detailed, high-quality, and professionally structured abstract for a machine learning research paper. The abstract must include the motivation, method, results, and conclusion."

/-- The Stage-1 user query of lines 92-94. -/
def generation_user_query (title : String) : String :=
  "Write a detailed, 250-word abstract for a research paper titled \x27" ++ title ++ "\x27. "

/-- `generate_paper_content(title)` of lines 83-99: fixed token budget 600,
default retry count 3. -/
def generate_paper_content (cfg : Config) (oracle : Nat → AttemptResult) (title : String) :
    CallResult :=
  gemini_api_call cfg oracle (generation_user_query title) generation_system_prompt 600 3

/-- The `max_tokens_map` dict of lines 105-109 (association list in
source order). -/
def max_tokens_map : List (String × Nat) :=
  [("Short (1-2 paragraphs)", 150), ("Medium (3-5 paragraphs)", 300),
   ("Long (detailed explanation)", 450)]

/-- Dict lookup `max_tokens_map[length]` of line 110; `none` models the
`KeyError` raised on a missing key. -/
def lookup_max_tokens (length : String) : Option Nat :=
  (max_tokens_map.find? (fun entry => entry.1 == length)).map (fun entry => entry.2)

/-- The `KeyError` raised by `max_tokens_map[length]` on an unrecognized
length; not a `RequestException`. -/
def keyError (length : String) : PyExc :=
  { name := "KeyError: " ++ length, isRequestException := false, isException := true }

/-- The Stage-2 system prompt of lines 112-115. -/
def summarization_system_prompt : String :=
  "You are a skilled explainer. Your task is to summarize a complex research paper abstract. You must adhere strictly to the requested style and length. Do not add any introductory or concluding phrases outside of the summary content."

/-- The Stage-2 user query of lines 117-122. -/
def summarization_user_query (content title style length : String) : String :=
  "Summarize the following research paper abstract for the paper titled \x27" ++ title ++
  "\x27. The explanation should be written in a **" ++ style ++
  "** style, and the summary length must be **" ++ length ++
  "**, focusing on core findings and implications. Abstract to summarize: \n\n" ++ content

/-- `summarize_content(content, title, style, length)` of lines 101-124.
`.error` is the uncaught `KeyError` of the dict lookup on line 110. -/
def summarize_content (cfg : Config) (oracle : Nat → AttemptResult)
    (content title style length : String) : Except PyExc CallResult :=
  match lookup_max_tokens length with
  | none => .error (keyError length)
  | some max_tokens =>
    .ok (gemini_api_call cfg oracle (summarization_user_query content title style length)
      summarization_system_prompt max_tokens 3)

/-- The `st.error` reports issued by the button handler. -/
inductive UiError where
  | noTitle
  | stage1Exception (e : PyExc)
  | stage1Failed
  | stage2Exception (e : PyExc)
  | stage2Failed

/-- One invocation of `summarize_content` by the handler, with its
argument tuple `(content, title, style, length)`. -/
structure Stage2Call where
  content : String
  title : String
  style : String
  length : String

/-- Observable trace of one run of the button handler: which titles went
to `generate_paper_content`, which argument tuples went to
`summarize_content`, which errors were reported, and the
`(final_summary, generated_abstract)` pair displayed (if the run got
that far). -/
structure PipelineTrace where
  stage1_calls : List String
  stage2_calls : List Stage2Call
  errors : List UiError
  displayed : Option (String × String)

/-- The "Generate & Summarize" button handler of lines 165-207:
empty-title guard, Stage 1 under try/except, empty-abstract check,
Stage 2 under try/except, empty-summary check, display. -/
def run_pipeline (cfg : Config) (oracle1 oracle2 : Nat → AttemptResult)
    (paper_input style_input length_input : String) : PipelineTrace :=
  if paper_input = "" then
    { stage1_calls := [], stage2_calls := [], errors := [.noTitle], displayed := none }
  else
    match (generate_paper_content cfg oracle1 paper_input).ret with
    | .error e =>
      { stage1_calls := [paper_input], stage2_calls := [],
        errors := [.stage1Exception e], displayed := none }
    | .ok generated_abstract =>
      if generated_abstract = "" then
        { stage1_calls := [paper_input], stage2_calls := [],
          errors := [.stage1Failed], displayed := none }
      else
        match summarize_content cfg oracle2 generated_abstract paper_input
            style_input length_input with
        | .error e =>
          { stage1_calls := [paper_input],
            stage2_calls := [⟨generated_abstract, paper_input, style_input, length_input⟩],
            errors := [.stage2Exception e], displayed := none }
        | .ok r2 =>
          match r2.ret with
          | .error e =>
            { stage1_calls := [paper_input],
              stage2_calls := [⟨generated_abstract, paper_input, style_input, length_input⟩],
              errors := [.stage2Exception e], displayed := none }
          | .ok final_summary =>
            { stage1_calls := [paper_input],
              stage2_calls := [⟨generated_abstract, paper_input, style_input, length_input⟩],
              errors := if final_summary = "" then [.stage2Failed] else [],
              displayed := some (final_summary, generated_abstract) }

/-- Number of HTTP POST attempts recorded in a trace. -/
def postCount : List Event → Nat
  | [] => 0
  | .post :: evs => postCount evs + 1
  | _ :: evs => postCount evs

/-- The backoff sleeps recorded in a trace, in order, in seconds. -/
def sleepsOf : List Event → List Nat
  | [] => []
  | .sleep s :: evs => s :: sleepsOf evs
  | _ :: evs => sleepsOf evs

/-- The final-failure reports in a trace, each naming the retry count and
the last cause. -/
def finalErrorsOf : List Event → List (Int × PyExc)
  | [] => []
  | .errorFinal n e :: evs => (n, e) :: finalErrorsOf evs
  | _ :: evs => finalErrorsOf evs

/-- The unexpected-error reports in a trace, each naming its cause. -/
def unexpectedErrorsOf : List Event → List PyExc
  | [] => []
  | .errorUnexpected e :: evs => e :: unexpectedErrorsOf evs
  | _ :: evs => unexpectedErrorsOf evs

/-- Number of 403 authorization-error reports in a trace. -/
def authErrorCount : List Event → Nat
  | [] => 0
  | .errorAuth :: evs => authErrorCount evs + 1
  | _ :: evs => authErrorCount evs

/-- An attempt whose `try` block fails with a `RequestException` (connection
error, timeout, or non-2xx via `raise_for_status` other than 403): the
class of failures the loop retries. -/
def isTransientOutcome (r : AttemptResult) : Bool :=
  match runTry r with
  | .caught e => e.isRequestException
  | _ => false

/-- An attempt all of whose possible exceptions are `Exception` subclasses
(as every exception raised by `requests`/`json`/indexing is). -/
def exceptionClassOnly (r : AttemptResult) : Bool :=
  match r with
  | .raised e => e.isException
  | .response _ (.error e) => e.isException
  | .response _ (.ok _) => true

/-- A transport whose every attempt raises a connection error. -/
def connectionError : PyExc :=
  { name := "ConnectionError", isRequestException := true, isException := true }

/-- A well-formed response body whose first candidate's first part carries
the given text. -/
def goodBody (x : String) : ResponseBody :=
  { candidates := some [{ content := some { parts := some [{ text := some x }] } }] }

/-- A response body whose first candidate's first part carries text `x`,
with arbitrary further parts and candidates. -/
def bodyWithText (x : String) (more_parts : List RPart) (more_cands : List RCandidate) : ResponseBody :=
  { candidates := some ({ content := some { parts := some ({ text := some x } :: more_parts) } } :: more_cands) }

/-- A response body whose `candidates` array is present but empty. -/
def emptyCandidatesBody : ResponseBody := { candidates := some [] }

/-- A response body lacking the `candidates` key altogether. -/
def noCandidatesKeyBody : ResponseBody := { candidates := none }

/-- A response body whose first candidate lacks the `content` key. -/
def noContentBody (more_cands : List RCandidate) : ResponseBody :=
  { candidates := some ({ content := none } :: more_cands) }

/-- A response body whose first candidate's content lacks the `parts` key. -/
def noPartsBody (more_cands : List RCandidate) : ResponseBody :=
  { candidates := some ({ content := some { parts := none } } :: more_cands) }

/-- A response body whose first candidate's `parts` array is present but empty. -/
def emptyPartsBody (more_cands : List RCandidate) : ResponseBody :=
  { candidates := some ({ content := some { parts := some [] } } :: more_cands) }

/-- A response body whose first candidate's first part lacks the `text` key. -/
def noTextBody (more_parts : List RPart) (more_cands : List RCandidate) : ResponseBody :=
  { candidates := some ({ content := some { parts := some ({ text := none } :: more_parts) } } :: more_cands) }

/-- A transport whose every attempt raises a connection error. -/
def constFailOracle : Nat → AttemptResult := fun _ => .raised connectionError

/-- A transport whose every attempt yields an HTTP 403 response. -/
def auth403Oracle : Nat → AttemptResult := fun _ => .response 403 (.ok { candidates := none })

/-- A transport whose every attempt yields a 200 response carrying text `x`. -/
def goodOracle (x : String) : Nat → AttemptResult := fun _ => .response 200 (.ok (goodBody x))

/-- A transport whose first attempt raises a connection error and whose
later attempts yield a 200 response with an empty candidates array
(so extraction raises `IndexError`). -/
def mixedOracle : Nat → AttemptResult
  | 0 => .raised connectionError
  | _ + 1 => .response 200 (.ok { candidates := some [] })

theorem geminiLoop_zero (oracle : Nat → AttemptResult) (n : Int) (i : Nat) :
    geminiLoop oracle n i 0 = { ret := .ok "", events := [] } := rfl

theorem geminiLoop_returned (oracle : Nat → AttemptResult) (n : Int) (i rem : Nat) (t : String)
    (h : runTry (oracle i) = .returned t) :
    geminiLoop oracle n i (rem + 1) = { ret := .ok t, events := [.post] } := by
  unfold geminiLoop
  rw [h]

theorem geminiLoop_auth (oracle : Nat → AttemptResult) (n : Int) (i rem : Nat)
    (h : runTry (oracle i) = .auth403) :
    geminiLoop oracle n i (rem + 1) = { ret := .ok "", events := [.post, .errorAuth] } := by
  unfold geminiLoop
  rw [h]

theorem geminiLoop_retry_step (oracle : Nat → AttemptResult) (n : Int) (i rem : Nat) (e : PyExc)
    (h : runTry (oracle i) = .caught e) (hreq : e.isRequestException = true)
    (hlt : (i : Int) < n - 1) :
    geminiLoop oracle n i (rem + 1) =
      { ret := (geminiLoop oracle n (i + 1) rem).ret,
        events := .post :: .sleep (2 ^ i) :: (geminiLoop oracle n (i + 1) rem).events } := by
  conv_lhs => unfold geminiLoop
  rw [h]
  simp [hreq, hlt]

theorem geminiLoop_final_step (oracle : Nat → AttemptResult) (n : Int) (i rem : Nat) (e : PyExc)
    (h : runTry (oracle i) = .caught e) (hreq : e.isRequestException = true)
    (hge : ¬ (i : Int) < n - 1) :
    geminiLoop oracle n i (rem + 1) = { ret := .ok "", events := [.post, .errorFinal n e] } := by
  unfold geminiLoop
  rw [h]
  simp [hreq, hge]

theorem geminiLoop_unexpected_step (oracle : Nat → AttemptResult) (n : Int) (i rem : Nat)
    (e : PyExc) (h : runTry (oracle i) = .caught e) (hreq : e.isRequestException = false)
    (hie : e.isException = true) :
    geminiLoop oracle n i (rem + 1) = { ret := .ok "", events := [.post, .errorUnexpected e] } := by
  unfold geminiLoop
  rw [h]
  simp [hreq, hie]

theorem gemini_api_call_ret (cfg : Config) (oracle : Nat → AttemptResult)
    (up sys : String) (mt : Nat) (rc : Int) :
    (gemini_api_call cfg oracle up sys mt rc).ret = (geminiLoop oracle rc 0 rc.toNat).ret := rfl

theorem gemini_api_call_events (cfg : Config) (oracle : Nat → AttemptResult)
    (up sys : String) (mt : Nat) (rc : Int) :
    (gemini_api_call cfg oracle up sys mt rc).events =
      (geminiLoop oracle rc 0 rc.toNat).events := rfl

theorem gemini_api_call_request (cfg : Config) (oracle : Nat → AttemptResult)
    (up sys : String) (mt : Nat) (rc : Int) :
    (gemini_api_call cfg oracle up sys mt rc).request =
      { url := build_url cfg, user_prompt := up, system_instruction := sys,
        generation_config := { maxOutputTokens := mt, temperature := temperature_of sys } } := rfl

theorem isTransientOutcome_caught (r : AttemptResult) (h : isTransientOutcome r = true) :
    ∃ e, runTry r = .caught e ∧ e.isRequestException = true := by
  unfold isTransientOutcome at h
  cases hr : runTry r with
  | returned t => rw [hr] at h; simp at h
  | auth403 => rw [hr] at h; simp at h
  | caught e => rw [hr] at h; exact ⟨e, rfl, h⟩

/-- Running the loop from index `i` with `rem ≥ 1` iterations remaining and
`i + rem = retry_count`, when every remaining attempt fails transiently:
empty-string return, one POST per remaining attempt, sleeps `2^i, …`
between attempts, and a single final-failure report naming the retry count
and the last attempt's exception. -/
theorem geminiLoop_all_transient (oracle : Nat → AttemptResult) (n : Int) :
    ∀ (rem i : Nat), 1 ≤ rem → (i : Int) + rem = n →
    (∀ j, i ≤ j → j < i + rem → isTransientOutcome (oracle j) = true) →
    (geminiLoop oracle n i rem).ret = .ok "" ∧
    postCount (geminiLoop oracle n i rem).events = rem ∧
    sleepsOf (geminiLoop oracle n i rem).events =
      (List.range (rem - 1)).map (fun k => 2 ^ (i + k)) ∧
    ∃ e, runTry (oracle (i + rem - 1)) = .caught e ∧
      finalErrorsOf (geminiLoop oracle n i rem).events = [(n, e)] := by
  intro rem
  induction rem with
  | zero => intro i h1 _ _; exact absurd h1 (by omega)
  | succ m ih =>
    intro i h1 hsum htr
    obtain ⟨e, hroi, hreq⟩ := isTransientOutcome_caught (oracle i)
      (htr i (Nat.le_refl i) (by omega))
    by_cases hm : m = 0
    · subst hm
      have hge : ¬ (i : Int) < n - 1 := by push_cast at hsum; omega
      rw [geminiLoop_final_step oracle n i 0 e hroi hreq hge]
      refine ⟨rfl, by simp [postCount], by simp [sleepsOf], e, ?_, by simp [finalErrorsOf]⟩
      simpa using hroi
    · have hlt : (i : Int) < n - 1 := by push_cast at hsum; omega
      rw [geminiLoop_retry_step oracle n i m e hroi hreq hlt]
      obtain ⟨ih1, ih2, ih3, e', he', ihe⟩ := ih (i + 1) (by omega)
        (by push_cast at hsum ⊢; omega)
        (fun j hj1 hj2 => htr j (by omega) (by omega))
      refine ⟨ih1, ?_, ?_, e', ?_, ?_⟩
      · simp [postCount, ih2]
      · simp only [sleepsOf, ih3]
        obtain ⟨m', rfl⟩ : ∃ m', m = m' + 1 := ⟨m - 1, by omega⟩
        simp only [Nat.add_sub_cancel]
        rw [List.range_succ_eq_map, List.map_cons, List.map_map]
        have htail : List.map (fun k => 2 ^ (i + 1 + k)) (List.range m') =
            List.map ((fun k => 2 ^ (i + k)) ∘ Nat.succ) (List.range m') :=
          List.map_congr_left fun a ha => by
            have hsw : i + 1 + a = i + (a + 1) := by omega
            simp [Function.comp, hsw]
        rw [htail]
        simp
      · have hidx : i + (m + 1) - 1 = i + 1 + m - 1 := by omega
        rw [hidx]
        exact he'
      · simp [finalErrorsOf, ihe]

theorem geminiLoop_unexpected (oracle : Nat → AttemptResult) (n : Int) (e : PyExc)
    (hnr : e.isRequestException = false) (hie : e.isException = true) :
    ∀ (k i rem : Nat), (i : Int) + rem = n → k < rem →
    (∀ j, i ≤ j → j < i + k → isTransientOutcome (oracle j) = true) →
    runTry (oracle (i + k)) = .caught e →
    (geminiLoop oracle n i rem).ret = .ok "" ∧
    postCount (geminiLoop oracle n i rem).events = k + 1 ∧
    sleepsOf (geminiLoop oracle n i rem).events =
      (List.range k).map (fun j => 2 ^ (i + j)) ∧
    unexpectedErrorsOf (geminiLoop oracle n i rem).events = [e] ∧
    finalErrorsOf (geminiLoop oracle n i rem).events = [] := by
  intro k
  induction k with
  | zero =>
    intro i rem hsum hk htr hcaught
    obtain ⟨m, rfl⟩ : ∃ m, rem = m + 1 := ⟨rem - 1, by omega⟩
    rw [geminiLoop_unexpected_step oracle n i m e (by simpa using hcaught) hnr hie]
    exact ⟨rfl, by simp [postCount], by simp [sleepsOf], by simp [unexpectedErrorsOf],
      by simp [finalErrorsOf]⟩
  | succ k' ih =>
    intro i rem hsum hk htr hcaught
    obtain ⟨m, rfl⟩ : ∃ m, rem = m + 1 := ⟨rem - 1, by omega⟩
    obtain ⟨et, hroi, hreqt⟩ := isTransientOutcome_caught (oracle i)
      (htr i (Nat.le_refl i) (by omega))
    have hlt : (i : Int) < n - 1 := by push_cast at hsum; omega
    rw [geminiLoop_retry_step oracle n i m et hroi hreqt hlt]
    obtain ⟨ih1, ih2, ih3, ih4, ih5⟩ := ih (i + 1) m (by push_cast at hsum ⊢; omega) (by omega)
      (fun j h1 h2 => htr j (by omega) (by omega))
      (by have hsw : i + 1 + k' = i + (k' + 1) := by omega
          rw [hsw]; exact hcaught)
    refine ⟨ih1, ?_, ?_, ?_, ?_⟩
    · simp [postCount, ih2]
    · simp only [sleepsOf, ih3]
      rw [List.range_succ_eq_map, List.map_cons, List.map_map]
      have htail : List.map (fun j => 2 ^ (i + 1 + j)) (List.range k') =
          List.map ((fun j => 2 ^ (i + j)) ∘ Nat.succ) (List.range k') :=
        List.map_congr_left fun a ha => by
          have hsw : i + 1 + a = i + (a + 1) := by omega
          simp [Function.comp, hsw]
      rw [htail]
      simp
    · simp [unexpectedErrorsOf, ih4]
    · simp [finalErrorsOf, ih5]

theorem extractText_error (body : ResponseBody) (e : PyExc) (h : extractText body = .error e) :
    e = indexError := by
  unfold extractText at h
  split at h
  · injection h with h'
    exact h'.symm
  · split at h
    · injection h with h'
      exact h'.symm
    · exact Except.noConfusion h

theorem runTry_caught_isException (r : AttemptResult) (e : PyExc)
    (h : runTry r = .caught e) (hc : exceptionClassOnly r = true) : e.isException = true := by
  cases r with
  | raised e' =>
    simp only [runTry] at h
    injection h with h'
    rw [← h']
    exact hc
  | response status bodyE =>
    simp only [runTry] at h
    by_cases h403 : status = 403
    · rw [if_pos h403] at h
      simp at h
    · rw [if_neg h403] at h
      by_cases hrange : 400 ≤ status ∧ status < 600
      · rw [if_pos hrange] at h
        injection h with h'
        rw [← h']
        rfl
      · rw [if_neg hrange] at h
        cases bodyE with
        | error e' =>
          injection h with h'
          rw [← h']
          exact hc
        | ok body =>
          cases hx : extractText body with
          | ok t =>
            simp [hx] at h
          | error e' =>
            simp only [hx] at h
            injection h with h'
            rw [← h', extractText_error body e' hx]
            rfl

theorem geminiLoop_no_propagation (oracle : Nat → AttemptResult) (n : Int)
    (hc : ∀ i, exceptionClassOnly (oracle i) = true) :
    ∀ (rem i : Nat), ∃ s, (geminiLoop oracle n i rem).ret = .ok s := by
  intro rem
  induction rem with
  | zero => intro i; exact ⟨"", rfl⟩
  | succ m ih =>
    intro i
    cases hr : runTry (oracle i) with
    | returned t =>
      rw [geminiLoop_returned oracle n i m t hr]
      exact ⟨t, rfl⟩
    | auth403 =>
      rw [geminiLoop_auth oracle n i m hr]
      exact ⟨"", rfl⟩
    | caught e =>
      have hie : e.isException = true := runTry_caught_isException (oracle i) e hr (hc i)
      by_cases hreq : e.isRequestException = true
      · by_cases hlt : (i : Int) < n - 1
        · rw [geminiLoop_retry_step oracle n i m e hr hreq hlt]
          exact ih (i + 1)
        · rw [geminiLoop_final_step oracle n i m e hr hreq hlt]
          exact ⟨"", rfl⟩
      · rw [geminiLoop_unexpected_step oracle n i m e hr (by simpa using hreq) hie]
        exact ⟨"", rfl⟩

/-- C1: when every attempt of an invocation of `gemini_api_call` fails with a
network-level transient error (a `RequestException`: connection error, timeout,
or non-2xx raised by `raise_for_status` other than the 403 case), the HTTP POST
is attempted exactly `retry_count` times, a sleep of `2^i` seconds follows
failed attempt `i` for every attempt except the last (delays 1s, 2s, 4s, ...),
and after the last attempt exactly one error is reported naming the retry
count and the last failure, and the empty string is returned. -/
theorem C1_retry_exhaustion (cfg : Config) (oracle : Nat → AttemptResult)
    (user_prompt system_instruction : String) (max_tokens : Nat) (n : Nat) (hn : 1 ≤ n)
    (htr : ∀ j, j < n → isTransientOutcome (oracle j) = true) :
    (gemini_api_call cfg oracle user_prompt system_instruction max_tokens (n : Int)).ret =
      .ok "" ∧
    postCount (gemini_api_call cfg oracle user_prompt system_instruction max_tokens
      (n : Int)).events = n ∧
    sleepsOf (gemini_api_call cfg oracle user_prompt system_instruction max_tokens
      (n : Int)).events = (List.range (n - 1)).map (fun k => 2 ^ k) ∧
    ∃ e, runTry (oracle (n - 1)) = .caught e ∧
      finalErrorsOf (gemini_api_call cfg oracle user_prompt system_instruction max_tokens
        (n : Int)).events = [((n : Int), e)] := by
  have htn : ((n : Int)).toNat = n := by omega
  obtain ⟨h1, h2, h3, e, he, hf⟩ := geminiLoop_all_transient oracle (n : Int) n 0 hn
    (by push_cast; omega) (fun j hj1 hj2 => htr j (by omega))
  rw [gemini_api_call_ret, gemini_api_call_events, htn]
  refine ⟨h1, h2, ?_, e, ?_, hf⟩
  · rw [h3]
    exact List.map_congr_left fun a ha => by rw [Nat.zero_add]
  · simpa using he

/-- C1 witness: a transport failing with a connection error on every attempt,
at the default retry count 3. -/
theorem C1_witness :
    (gemini_api_call defaultConfig constFailOracle "p" "s" 100 ((3 : Nat) : Int)).ret =
      .ok "" ∧
    postCount (gemini_api_call defaultConfig constFailOracle "p" "s" 100
      ((3 : Nat) : Int)).events = 3 ∧
    sleepsOf (gemini_api_call defaultConfig constFailOracle "p" "s" 100
      ((3 : Nat) : Int)).events = (List.range (3 - 1)).map (fun k => 2 ^ k) ∧
    ∃ e, runTry (constFailOracle (3 - 1)) = .caught e ∧
      finalErrorsOf (gemini_api_call defaultConfig constFailOracle "p" "s" 100
        ((3 : Nat) : Int)).events = [(((3 : Nat) : Int), e)] :=
  C1_retry_exhaustion defaultConfig constFailOracle "p" "s" 100 3 (by decide)
    (fun j hj => rfl)

/-- C2: if the response to the first attempt has status 403, exactly one
HTTP POST is made, an authorization error is reported, the empty string is
returned, and no backoff sleep occurs. -/
theorem C2_403_no_retry (cfg : Config) (oracle : Nat → AttemptResult)
    (user_prompt system_instruction : String) (max_tokens : Nat) (retry_count : Int)
    (h1 : 1 ≤ retry_count) (body : Except PyExc ResponseBody)
    (h403 : oracle 0 = .response 403 body) :
    (gemini_api_call cfg oracle user_prompt system_instruction max_tokens retry_count).ret =
      .ok "" ∧
    (gemini_api_call cfg oracle user_prompt system_instruction max_tokens
      retry_count).events = [.post, .errorAuth] ∧
    postCount (gemini_api_call cfg oracle user_prompt system_instruction max_tokens
      retry_count).events = 1 ∧
    sleepsOf (gemini_api_call cfg oracle user_prompt system_instruction max_tokens
      retry_count).events = [] ∧
    authErrorCount (gemini_api_call cfg oracle user_prompt system_instruction max_tokens
      retry_count).events = 1 := by
  have hauth : runTry (oracle 0) = .auth403 := by
    rw [h403]
    simp [runTry]
  obtain ⟨m, hm⟩ : ∃ m, retry_count.toNat = m + 1 := ⟨retry_count.toNat - 1, by omega⟩
  rw [gemini_api_call_ret, gemini_api_call_events, hm,
    geminiLoop_auth oracle retry_count 0 m hauth]
  exact ⟨rfl, rfl, by simp [postCount], by simp [sleepsOf], by simp [authErrorCount]⟩

/-- C2 witness: a transport answering 403 on every attempt, retry count 3. -/
theorem C2_witness :
    (gemini_api_call defaultConfig auth403Oracle "p" "s" 100 3).ret = .ok "" ∧
    (gemini_api_call defaultConfig auth403Oracle "p" "s" 100 3).events =
      [.post, .errorAuth] ∧
    postCount (gemini_api_call defaultConfig auth403Oracle "p" "s" 100 3).events = 1 ∧
    sleepsOf (gemini_api_call defaultConfig auth403Oracle "p" "s" 100 3).events = [] ∧
    authErrorCount (gemini_api_call defaultConfig auth403Oracle "p" "s" 100 3).events = 1 :=
  C2_403_no_retry defaultConfig auth403Oracle "p" "s" 100 3 (by decide)
    (.ok { candidates := none }) rfl

set_option maxRecDepth 8000 in
/-- C3 (code evaluation): the temperature actually selected is 9/10 for BOTH
stages — the case-sensitive substring "Summarize" does not occur in the
Stage-2 system instruction (which says "summarize"), so the summarization
call does NOT get the lower design value 7/10 the claim (and the code's own
comment "Use lower temp for summarization") require. -/
theorem C3_temperature_selected (cfg : Config) (oracle : Nat → AttemptResult)
    (content title : String) :
    (generate_paper_content cfg oracle title).request.generation_config.temperature = 9/10 ∧
    ∃ r, summarize_content cfg oracle content title "Technical" "Short (1-2 paragraphs)" =
        .ok r ∧
      r.request.generation_config.temperature = 9/10 ∧
      r.request.generation_config.temperature ≠ 7/10 := by
  have hgen : strContains generation_system_prompt "Summarize" = false := rfl
  have hsum : strContains summarization_system_prompt "Summarize" = false := rfl
  constructor
  · unfold generate_paper_content
    rw [gemini_api_call_request]
    simp [temperature_of, hgen]
  · refine ⟨gemini_api_call cfg oracle
      (summarization_user_query content title "Technical" "Short (1-2 paragraphs)")
      summarization_system_prompt 150 3, rfl, ?_, ?_⟩
    · rw [gemini_api_call_request]
      simp [temperature_of, hsum]
    · rw [gemini_api_call_request]
      simp [temperature_of, hsum]
      norm_num

/-- C4: in the button handler, for every non-empty title: if Stage 1 returns
the empty string then `summarize_content` is never invoked and a Stage-1
failure is reported; if Stage 1 returns a non-empty string then
`summarize_content` is invoked exactly once, with exactly that abstract as
its content argument. -/
theorem C4_stage_gating (cfg : Config) (oracle1 oracle2 : Nat → AttemptResult)
    (title style length : String) (ht : title ≠ "") :
    (∀ s : String, (generate_paper_content cfg oracle1 title).ret = .ok s → s = "" →
      (run_pipeline cfg oracle1 oracle2 title style length).stage2_calls = [] ∧
      (run_pipeline cfg oracle1 oracle2 title style length).errors = [.stage1Failed]) ∧
    (∀ s : String, (generate_paper_content cfg oracle1 title).ret = .ok s → s ≠ "" →
      (run_pipeline cfg oracle1 oracle2 title style length).stage2_calls =
        [{ content := s, title := title, style := style, length := length }]) := by
  constructor
  · intro s hs hempty
    subst hempty
    unfold run_pipeline
    rw [if_neg ht]
    simp only [hs]
    exact ⟨rfl, rfl⟩
  · intro s hs hne
    unfold run_pipeline
    rw [if_neg ht]
    simp only [hs]
    rw [if_neg hne]
    cases h2 : summarize_content cfg oracle2 s title style length with
    | error e => simp only [h2]
    | ok r2 =>
      simp only [h2]
      cases hr : r2.ret with
      | error e => simp only [hr]
      | ok fs =>
        simp only [hr]

/-- C4 witness: with a transport making Stage 1 produce "abc", Stage 2 is
invoked exactly once with "abc" as its content argument. -/
theorem C4_witness :
    (run_pipeline defaultConfig (goodOracle "abc") (goodOracle "xyz")
      "Attention Is All You Need" "Technical" "Short (1-2 paragraphs)").stage2_calls =
      [{ content := "abc", title := "Attention Is All You Need", style := "Technical",
         length := "Short (1-2 paragraphs)" }] :=
  (C4_stage_gating defaultConfig (goodOracle "abc") (goodOracle "xyz")
    "Attention Is All You Need" "Technical" "Short (1-2 paragraphs)" (by decide)).2
    "abc" rfl (by decide)

/-- C5: the token budget of `summarize_content` is exactly the three-entry
mapping short→150, medium→300, long→450, and any other length value makes
`summarize_content` fail fast with a `KeyError` rather than choosing a
default budget. -/
theorem C5_token_budget_mapping :
    lookup_max_tokens "Short (1-2 paragraphs)" = some 150 ∧
    lookup_max_tokens "Medium (3-5 paragraphs)" = some 300 ∧
    lookup_max_tokens "Long (detailed explanation)" = some 450 ∧
    ∀ length : String, length ≠ "Short (1-2 paragraphs)" →
      length ≠ "Medium (3-5 paragraphs)" → length ≠ "Long (detailed explanation)" →
      lookup_max_tokens length = none ∧
      ∀ (cfg : Config) (oracle : Nat → AttemptResult) (content title style : String),
        summarize_content cfg oracle content title style length = .error (keyError length) := by
  refine ⟨rfl, rfl, rfl, ?_⟩
  intro length h1 h2 h3
  have b1 : ("Short (1-2 paragraphs)" == length) = false :=
    beq_eq_false_iff_ne.mpr (Ne.symm h1)
  have b2 : ("Medium (3-5 paragraphs)" == length) = false :=
    beq_eq_false_iff_ne.mpr (Ne.symm h2)
  have b3 : ("Long (detailed explanation)" == length) = false :=
    beq_eq_false_iff_ne.mpr (Ne.symm h3)
  have hnone : lookup_max_tokens length = none := by
    simp [lookup_max_tokens, max_tokens_map, List.find?, b1, b2, b3]
  refine ⟨hnone, fun cfg oracle content title style => ?_⟩
  unfold summarize_content
  rw [hnone]

/-- C5 witness: the unrecognized length "Huge" raises `KeyError`. -/
theorem C5_witness :
    lookup_max_tokens "Huge" = none ∧
    summarize_content defaultConfig constFailOracle "c" "t" "Technical" "Huge" =
      .error (keyError "Huge") := by
  obtain ⟨hn, hs⟩ := C5_token_budget_mapping.2.2.2 "Huge" (by decide) (by decide) (by decide)
  exact ⟨hn, hs defaultConfig constFailOracle "c" "t" "Technical"⟩

/-- C6: for a 2xx response whose body carries
`candidates[0].content.parts[0].text = x`, `gemini_api_call` returns `x`
stripped of surrounding whitespace; for a 2xx response whose expected
nested structure is absent — empty candidates array, missing `candidates`
key, candidate lacking `content`, content lacking `parts`, empty `parts`
array, or part lacking `text` — it returns the empty string (no exception
reaches the caller: the result is a normal `.ok` return in every case). -/
theorem C6_extraction (cfg : Config) (oracle : Nat → AttemptResult)
    (user_prompt system_instruction : String) (max_tokens : Nat) (retry_count : Int)
    (h1 : 1 ≤ retry_count) (status : Nat) (h2xx : 200 ≤ status ∧ status ≤ 299) :
    (∀ (x : String) (more_parts : List RPart) (more_cands : List RCandidate),
      oracle 0 = .response status (.ok (bodyWithText x more_parts more_cands)) →
      (gemini_api_call cfg oracle user_prompt system_instruction max_tokens retry_count).ret =
        .ok (pyStrip x)) ∧
    (oracle 0 = .response status (.ok emptyCandidatesBody) →
      (gemini_api_call cfg oracle user_prompt system_instruction max_tokens retry_count).ret =
        .ok "") ∧
    (oracle 0 = .response status (.ok noCandidatesKeyBody) →
      (gemini_api_call cfg oracle user_prompt system_instruction max_tokens retry_count).ret =
        .ok "") ∧
    (∀ more_cands : List RCandidate,
      oracle 0 = .response status (.ok (noContentBody more_cands)) →
      (gemini_api_call cfg oracle user_prompt system_instruction max_tokens retry_count).ret =
        .ok "") ∧
    (∀ more_cands : List RCandidate,
      oracle 0 = .response status (.ok (noPartsBody more_cands)) →
      (gemini_api_call cfg oracle user_prompt system_instruction max_tokens retry_count).ret =
        .ok "") ∧
    (∀ more_cands : List RCandidate,
      oracle 0 = .response status (.ok (emptyPartsBody more_cands)) →
      (gemini_api_call cfg oracle user_prompt system_instruction max_tokens retry_count).ret =
        .ok "") ∧
    (∀ (more_parts : List RPart) (more_cands : List RCandidate),
      oracle 0 = .response status (.ok (noTextBody more_parts more_cands)) →
      (gemini_api_call cfg oracle user_prompt system_instruction max_tokens retry_count).ret =
        .ok "") := by
  obtain ⟨m, hm⟩ : ∃ m, retry_count.toNat = m + 1 := ⟨retry_count.toNat - 1, by omega⟩
  have hne403 : ¬ status = 403 := by omega
  have hnr : ¬ (400 ≤ status ∧ status < 600) := by omega
  have hok : ∀ (b : ResponseBody) (t : String), extractText b = .ok t →
      oracle 0 = .response status (.ok b) →
      (gemini_api_call cfg oracle user_prompt system_instruction max_tokens retry_count).ret =
        .ok t := by
    intro b t hb h0
    have hrt : runTry (oracle 0) = .returned t := by
      rw [h0]
      simp only [runTry]
      rw [if_neg hne403, if_neg hnr]
      simp only [hb]
    rw [gemini_api_call_ret, hm, geminiLoop_returned oracle retry_count 0 m t hrt]
  have herr : ∀ b : ResponseBody, extractText b = .error indexError →
      oracle 0 = .response status (.ok b) →
      (gemini_api_call cfg oracle user_prompt system_instruction max_tokens retry_count).ret =
        .ok "" := by
    intro b hb h0
    have hrt : runTry (oracle 0) = .caught indexError := by
      rw [h0]
      simp only [runTry]
      rw [if_neg hne403, if_neg hnr]
      simp only [hb]
    rw [gemini_api_call_ret, hm,
      geminiLoop_unexpected_step oracle retry_count 0 m indexError hrt rfl rfl]
  exact ⟨fun x more_parts more_cands h0 => hok (bodyWithText x more_parts more_cands)
      (pyStrip x) rfl h0,
    fun h0 => herr emptyCandidatesBody rfl h0,
    fun h0 => hok noCandidatesKeyBody "" rfl h0,
    fun more_cands h0 => hok (noContentBody more_cands) "" rfl h0,
    fun more_cands h0 => hok (noPartsBody more_cands) "" rfl h0,
    fun more_cands h0 => herr (emptyPartsBody more_cands) rfl h0,
    fun more_parts more_cands h0 => hok (noTextBody more_parts more_cands) "" rfl h0⟩

/-- C6 witness: a 200 response carrying text " X " yields the stripped text. -/
theorem C6_witness :
    (gemini_api_call defaultConfig (goodOracle " X ") "p" "s" 100 3).ret =
      .ok (pyStrip " X ") :=
  (C6_extraction defaultConfig (goodOracle " X ") "p" "s" 100 3 (by decide) 200
    (by decide)).1 " X " [] [] rfl

/-- C7: `gemini_api_call` is total at its boundary — for every configuration,
every transport behavior (any status code, any exception of Python class
`Exception` during transport or parsing) and every retry count, the call
terminates with a normal string return (never a propagated exception). -/
theorem C7_no_exception_propagation (cfg : Config) (oracle : Nat → AttemptResult)
    (user_prompt system_instruction : String) (max_tokens : Nat) (retry_count : Int)
    (hc : ∀ i, exceptionClassOnly (oracle i) = true) :
    ∃ s : String,
      (gemini_api_call cfg oracle user_prompt system_instruction max_tokens retry_count).ret =
        .ok s := by
  simp only [gemini_api_call_ret]
  exact geminiLoop_no_propagation oracle retry_count hc retry_count.toNat 0

/-- C7 witness: a transport raising a connection error on every attempt. -/
theorem C7_witness :
    ∃ s : String,
      (gemini_api_call defaultConfig constFailOracle "p" "s" 100 3).ret = .ok s :=
  C7_no_exception_propagation defaultConfig constFailOracle "p" "s" 100 3 (fun _ => rfl)

/-- C8: the request URL is the endpoint with `?key=<api_key>` appended when
the configured key is non-empty, and the bare endpoint when it is empty. -/
theorem C8_url_key_parameter (cfg : Config) (oracle : Nat → AttemptResult)
    (user_prompt system_instruction : String) (max_tokens : Nat) (retry_count : Int) :
    (cfg.api_key ≠ "" →
      (gemini_api_call cfg oracle user_prompt system_instruction max_tokens
        retry_count).request.url = cfg.api_url ++ "?key=" ++ cfg.api_key) ∧
    (cfg.api_key = "" →
      (gemini_api_call cfg oracle user_prompt system_instruction max_tokens
        retry_count).request.url = cfg.api_url) := by
  rw [gemini_api_call_request]
  constructor
  · intro hk
    simp [build_url, hk]
  · intro hk
    simp [build_url, hk]

/-- C8 witness: the default configuration's key is non-empty, so the URL
carries the key query parameter. -/
theorem C8_witness :
    (gemini_api_call defaultConfig constFailOracle "p" "s" 100 3).request.url =
      API_URL ++ "?key=" ++ API_KEY :=
  (C8_url_key_parameter defaultConfig constFailOracle "p" "s" 100 3).1 (by decide)

/-- C9: with `retry_count ≤ 0` the loop body never executes — no HTTP
request, no sleep, no error report — and the empty string is returned. -/
theorem C9_nonpositive_retry_count (cfg : Config) (oracle : Nat → AttemptResult)
    (user_prompt system_instruction : String) (max_tokens : Nat) (retry_count : Int)
    (h : retry_count ≤ 0) :
    (gemini_api_call cfg oracle user_prompt system_instruction max_tokens retry_count).ret =
      .ok "" ∧
    (gemini_api_call cfg oracle user_prompt system_instruction max_tokens
      retry_count).events = [] := by
  have htn : retry_count.toNat = 0 := by omega
  rw [gemini_api_call_ret, gemini_api_call_events, htn]
  exact ⟨rfl, rfl⟩

/-- C9 witness: retry count -1 yields no events and an empty-string return. -/
theorem C9_witness :
    (gemini_api_call defaultConfig constFailOracle "p" "s" 100 (-1)).ret = .ok "" ∧
    (gemini_api_call defaultConfig constFailOracle "p" "s" 100 (-1)).events = [] :=
  C9_nonpositive_retry_count defaultConfig constFailOracle "p" "s" 100 (-1) (by decide)

/-- C10: an exception that is not a `RequestException`, arising at attempt
`k` after `k` transient failures, is never retried: it is reported once and
the function returns the empty string immediately — `k+1` POSTs in total,
only the `k` earlier backoff sleeps, no final-failure report, regardless of
how many attempts remain. -/
theorem C10_unexpected_not_retried (cfg : Config) (oracle : Nat → AttemptResult)
    (user_prompt system_instruction : String) (max_tokens : Nat) (n : Int) (k : Nat)
    (hk : (k : Int) < n)
    (hpre : ∀ j, j < k → isTransientOutcome (oracle j) = true)
    (e : PyExc) (he : runTry (oracle k) = .caught e)
    (hnr : e.isRequestException = false) (hie : e.isException = true) :
    (gemini_api_call cfg oracle user_prompt system_instruction max_tokens n).ret = .ok "" ∧
    postCount (gemini_api_call cfg oracle user_prompt system_instruction max_tokens
      n).events = k + 1 ∧
    sleepsOf (gemini_api_call cfg oracle user_prompt system_instruction max_tokens
      n).events = (List.range k).map (fun j => 2 ^ j) ∧
    unexpectedErrorsOf (gemini_api_call cfg oracle user_prompt system_instruction max_tokens
      n).events = [e] ∧
    finalErrorsOf (gemini_api_call cfg oracle user_prompt system_instruction max_tokens
      n).events = [] := by
  obtain ⟨h1, h2, h3, h4, h5⟩ := geminiLoop_unexpected oracle n e hnr hie k 0 n.toNat
    (by omega) (by omega) (fun j hj1 hj2 => hpre j (by omega)) (by simpa using he)
  rw [gemini_api_call_ret, gemini_api_call_events]
  refine ⟨h1, h2, ?_, h4, h5⟩
  rw [h3]
  exact List.map_congr_left fun a ha => by rw [Nat.zero_add]

/-- C10 witness: a connection error on attempt 0, then an `IndexError` on
attempt 1 (2xx body with empty candidates): two POSTs, one sleep, one
unexpected-error report, no final-failure report, empty-string return —
the third attempt is never made. -/
theorem C10_witness :
    (gemini_api_call defaultConfig mixedOracle "p" "s" 100 3).ret = .ok "" ∧
    postCount (gemini_api_call defaultConfig mixedOracle "p" "s" 100 3).events = 1 + 1 ∧
    sleepsOf (gemini_api_call defaultConfig mixedOracle "p" "s" 100 3).events =
      (List.range 1).map (fun j => 2 ^ j) ∧
    unexpectedErrorsOf (gemini_api_call defaultConfig mixedOracle "p" "s" 100 3).events =
      [indexError] ∧
    finalErrorsOf (gemini_api_call defaultConfig mixedOracle "p" "s" 100 3).events = [] :=
  C10_unexpected_not_retried defaultConfig mixedOracle "p" "s" 100 3 1 (by decide)
    (by decide) indexError rfl rfl rfl

end ResearchSummarizer
